import Mathlib

/-
Verification of the polling / status-aggregation tool in
src/monitor_ssm_request.py against its specification.

The embedding is shallow: each Python function of the module is translated
into a Lean definition over explicit data.  External effects (stdin, stdout,
stderr, the network, sleeping, process exit) are modelled as events in a
trace, and the remote service is modelled as a stream of fetch results.
-/

namespace Monitor

/-! ## JSON values and Python lookup semantics (for extract_command_id) -/

/-- A parsed JSON document, as produced by a JSON decoder.
Numbers are modelled as integers; the claims never depend on fractional
values.  Objects are association lists with distinct keys (a decoder yields
one entry per key). -/
inductive JValue where
  | null
  | boolean (b : Bool)
  | num (n : Int)
  | str (s : String)
  | arr (elems : List JValue)
  | obj (fields : List (String × JValue))

/-- Association-list lookup, modelling Python dict lookup `d[k]`. -/
def lookupField : List (String × JValue) → String → Option JValue
  | [], _ => none
  | (k, v) :: rest, key => if k = key then some v else lookupField rest key

/-- Outcome of a Python subscript expression `x[k]` with a string key. -/
inductive LookupResult where
  | found (v : JValue)
  | keyError
  | typeError

/-- Python subscripting `x[k]` for a string key `k`: on a dict it looks the
key up (raising KeyError when absent); on every other value it raises
TypeError (lists demand integer indices; strings, numbers, booleans and
None are not subscriptable by a string). -/
def pySubscript : JValue → String → LookupResult
  | .obj fields, key =>
    match lookupField fields key with
    | some v => .found v
    | none => .keyError
  | _, _ => .typeError

/-- Python truthiness: `not x` is true exactly for None, False, zero, and
empty strings, lists and dicts. -/
def pyFalsy : JValue → Bool
  | .null => true
  | .boolean b => !b
  | .num n => n == 0
  | .str s => s.isEmpty
  | .arr elems => elems.isEmpty
  | .obj fields => fields.isEmpty

/-- Outcome of `extract_command_id`. -/
inductive ExtractResult where
  | ok (commandId : JValue)
  /-- The except-clause ran: one-line diagnostic on stderr, `sys.exit(1)`. -/
  | malformedExit
  /-- An uncaught TypeError escaped the function: the interpreter prints a
  traceback to stderr and the process dies with exit code 1. -/
  | typeErrorCrash

/-- `extract_command_id` (src lines 34-43), applied to the result of
`json.loads` (`none` models a `json.JSONDecodeError`).  The try-block
evaluates `data["Command"]["CommandId"]` and raises KeyError on a falsy
value; only JSONDecodeError and KeyError are caught. -/
def extract_command_id : Option JValue → ExtractResult
  | none => .malformedExit
  | some data =>
    match pySubscript data "Command" with
    | .typeError => .typeErrorCrash
    | .keyError => .malformedExit
    | .found command =>
      match pySubscript command "CommandId" with
      | .typeError => .typeErrorCrash
      | .keyError => .malformedExit
      | .found commandId =>
        if pyFalsy commandId then .malformedExit else .ok commandId

/-- Whether the input carries a non-empty (truthy) `Command.CommandId`,
i.e. whether extraction succeeds. -/
def hasNonEmptyCommandId (input : Option JValue) : Bool :=
  match extract_command_id input with
  | .ok _ => true
  | _ => false

/-! ## Invocation records and the status summary -/

/-- One per-host invocation record.  The summarizer reads only the
`Status` field (`invocation.get("Status")`); `none` models a record
without that key, for which `.get` yields None. -/
structure Invocation where
  status : Option String
deriving DecidableEq

/-- The eight keys of the summary dict (src lines 57-66). -/
inductive Category where
  | Success | Failed | InProgress | Cancelled | TimedOut | Cancelling | Received | Other
deriving DecidableEq

/-- The summary dict: a count per category. -/
structure StatusSummary where
  Success : Nat
  Failed : Nat
  InProgress : Nat
  Cancelled : Nat
  TimedOut : Nat
  Cancelling : Nat
  Received : Nat
  Other : Nat
deriving DecidableEq

/-- The summary as initialized, every count zero. -/
def initSummary : StatusSummary := ⟨0, 0, 0, 0, 0, 0, 0, 0⟩

/-- Read one category count out of a summary (`summary[status]`). -/
def getCount (s : StatusSummary) : Category → Nat
  | .Success => s.Success
  | .Failed => s.Failed
  | .InProgress => s.InProgress
  | .Cancelled => s.Cancelled
  | .TimedOut => s.TimedOut
  | .Cancelling => s.Cancelling
  | .Received => s.Received
  | .Other => s.Other

/-- `summary[c] += 1`. -/
def incr (s : StatusSummary) : Category → StatusSummary
  | .Success => { s with Success := s.Success + 1 }
  | .Failed => { s with Failed := s.Failed + 1 }
  | .InProgress => { s with InProgress := s.InProgress + 1 }
  | .Cancelled => { s with Cancelled := s.Cancelled + 1 }
  | .TimedOut => { s with TimedOut := s.TimedOut + 1 }
  | .Cancelling => { s with Cancelling := s.Cancelling + 1 }
  | .Received => { s with Received := s.Received + 1 }
  | .Other => { s with Other := s.Other + 1 }

/-- The branch `if status in summary: summary[status] += 1 else:
summary["Other"] += 1` (src lines 68-72): the bucket a record lands in.
Note `"Other"` itself is a key of the dict, so a literal status `"Other"`
takes the first branch, with the same effect as the else-branch. -/
def classify (inv : Invocation) : Category :=
  match inv.status with
  | some s =>
    if s = "Success" then .Success
    else if s = "Failed" then .Failed
    else if s = "InProgress" then .InProgress
    else if s = "Cancelled" then .Cancelled
    else if s = "TimedOut" then .TimedOut
    else if s = "Cancelling" then .Cancelling
    else if s = "Received" then .Received
    else if s = "Other" then .Other
    else .Other
  | none => .Other

/-- One pass of the summarizer loop body. -/
def tallyStep (s : StatusSummary) (inv : Invocation) : StatusSummary :=
  incr s (classify inv)

/-- `summarize_status` (src lines 56-73): fold the loop body over the
records, starting from the all-zero summary. -/
def summarize_status (invocations : List Invocation) : StatusSummary :=
  invocations.foldl tallyStep initSummary

/-- `sum(summary.values())` as printed on the Total Instances line. -/
def sumValues (s : StatusSummary) : Nat :=
  s.Success + s.Failed + s.InProgress + s.Cancelled + s.TimedOut +
    s.Cancelling + s.Received + s.Other

/-! ## Spec-side definitions, for refinement-style claims -/

/-- Modelled from the spec words for the Summarizer contract: if the status
string exactly matches one of the SEVEN named categories the record goes to
that category, otherwise (unknown string, or no status at all) to Other. -/
def specBucket (inv : Invocation) : Category :=
  match inv.status with
  | some s =>
    if s = "Success" then .Success
    else if s = "Failed" then .Failed
    else if s = "InProgress" then .InProgress
    else if s = "Cancelled" then .Cancelled
    else if s = "TimedOut" then .TimedOut
    else if s = "Cancelling" then .Cancelling
    else if s = "Received" then .Received
    else .Other
  | none => .Other

/-- Modelled from the spec words for the termination predicate: the run is
complete when and only when InProgress, Cancelling and Received are all
zero in the latest summary. -/
def specComplete (s : StatusSummary) : Prop :=
  s.InProgress = 0 ∧ s.Cancelling = 0 ∧ s.Received = 0

instance (s : StatusSummary) : Decidable (specComplete s) :=
  inferInstanceAs (Decidable (s.InProgress = 0 ∧ s.Cancelling = 0 ∧ s.Received = 0))

/-! ## The polling loop -/

/-- Result of one `list_command_invocations` call.  `ok resp` is a
successful response, where `resp = none` models a response without the
`CommandInvocations` key (for which `.get` falls back to `[]`);
`clientError e` models a raised `ClientError` rendered as `e`. -/
inductive FetchResult where
  | ok (commandInvocations : Option (List Invocation))
  | clientError (e : String)

/-- Observable events of a run. -/
inductive Event where
  /-- The one-line malformed-input diagnostic on stderr (src line 42). -/
  | stderrDiagnostic
  /-- An uncaught-exception traceback on stderr. -/
  | stderrTraceback
  /-- The startup lines naming the command id and interval. -/
  | startupPrinted
  /-- One network call to `list_command_invocations`. -/
  | fetched
  /-- The fetch-failure detail written to stderr (src line 53). -/
  | errorPrinted (e : String)
  /-- One per-cycle summary block on stdout. -/
  | summaryPrinted (s : StatusSummary)
  /-- `time.sleep(secs)`. -/
  | slept (secs : Nat)
  /-- `sys.exit(code)`. -/
  | exited (code : Nat)
deriving DecidableEq

/-- The check on src line 114:
`summary["InProgress"] == 0 and summary["Cancelling"] == 0 and
summary["Received"] == 0`. -/
def allCompleted (s : StatusSummary) : Bool :=
  s.InProgress == 0 && s.Cancelling == 0 && s.Received == 0

/-- The `while not all_completed` loop of `main` (src lines 108-123), as
the trace of events it emits within `fuel` iterations against the stream
`fetches` of service responses.  Each iteration fetches, and on a client
error prints the detail and exits 1; otherwise it summarizes, prints the
summary, and either exits (0 or 1 by `summary["Failed"]`) or sleeps for
the interval and repeats on the rest of the stream. -/
def loopEvents (interval : Nat) (fetches : Nat → FetchResult) : Nat → List Event
  | 0 => []
  | fuel + 1 =>
    match fetches 0 with
    | .clientError e => [.fetched, .errorPrinted e, .exited 1]
    | .ok resp =>
      let invocations := resp.getD []
      let summary := summarize_status invocations
      .fetched :: .summaryPrinted summary ::
        (if allCompleted summary then
          [.exited (if summary.Failed > 0 then 1 else 0)]
        else
          .slept interval :: loopEvents interval (fun k => fetches (k + 1)) fuel)

/-- The default of the `--interval` flag (src line 17). -/
def defaultInterval : Nat := 15

/-- `main` (src lines 88-123): extract the command id from the parsed
stdin document; on a caught failure print the one-line diagnostic and exit
1, on an uncaught TypeError crash with a traceback (also exit code 1);
otherwise print the startup lines and enter the polling loop.  Session and
client construction perform no network call. -/
def mainEvents (input : Option JValue) (interval : Nat)
    (fetches : Nat → FetchResult) (fuel : Nat) : List Event :=
  match extract_command_id input with
  | .malformedExit => [.stderrDiagnostic, .exited 1]
  | .typeErrorCrash => [.stderrTraceback, .exited 1]
  | .ok _ => .startupPrinted :: loopEvents interval fetches fuel

/-- Number of `slept interval` events in a trace. -/
def countSleeps (interval : Nat) (t : List Event) : Nat :=
  t.countP fun e => decide (e = Event.slept interval)

/-- Number of network calls in a trace. -/
def countFetches (t : List Event) : Nat :=
  t.countP fun e => decide (e = Event.fetched)

/-- The summary one successful cycle prints (the client-error arm is never
reached under the hypotheses that use this). -/
def cycleSummary : FetchResult → StatusSummary
  | .ok resp => summarize_status (resp.getD [])
  | .clientError _ => initSummary

/-- Modelled from the spec words for the non-terminating loop: the trace
of a run that never completes is fetch, summary, sleep for the interval,
and then the same again on the rest of the stream — one sleep between
each fetch and the next, no exit anywhere. -/
def pollingTrace (interval : Nat) (fetches : Nat → FetchResult) : Nat → List Event
  | 0 => []
  | fuel + 1 =>
    Event.fetched :: Event.summaryPrinted (cycleSummary (fetches 0)) ::
      Event.slept interval ::
        pollingTrace interval (fun k => fetches (k + 1)) fuel

/-- Modelled from the amended claim C3: the behaviour of a run on an
input lacking a non-empty Command.CommandId.  The process terminates with
exit code 1 and never touches the network; it writes the one-line
diagnostic when decoding fails, when a dict lookup finds its key absent
(at either level of the path), or when the extracted value is falsy; it
crashes with an uncaught TypeError traceback when the path subscripts a
non-dict value (at either level). -/
def malformedRunBehavior (input : Option JValue) (t : List Event) : Prop :=
  (t = [Event.stderrDiagnostic, Event.exited 1] ∨
    t = [Event.stderrTraceback, Event.exited 1]) ∧
  Event.fetched ∉ t ∧
  Event.exited 1 ∈ t ∧
  (input = none → t = [Event.stderrDiagnostic, Event.exited 1]) ∧
  (∀ fields, input = some (JValue.obj fields) →
    lookupField fields "Command" = none →
    t = [Event.stderrDiagnostic, Event.exited 1]) ∧
  (∀ fields cfields, input = some (JValue.obj fields) →
    lookupField fields "Command" = some (JValue.obj cfields) →
    lookupField cfields "CommandId" = none →
    t = [Event.stderrDiagnostic, Event.exited 1]) ∧
  (∀ fields cfields v, input = some (JValue.obj fields) →
    lookupField fields "Command" = some (JValue.obj cfields) →
    lookupField cfields "CommandId" = some v → pyFalsy v = true →
    t = [Event.stderrDiagnostic, Event.exited 1]) ∧
  (∀ data, input = some data → (∀ fields, data ≠ JValue.obj fields) →
    t = [Event.stderrTraceback, Event.exited 1]) ∧
  (∀ fields c, input = some (JValue.obj fields) →
    lookupField fields "Command" = some c →
    (∀ cfields, c ≠ JValue.obj cfields) →
    t = [Event.stderrTraceback, Event.exited 1])

/-! ## Helper lemmas -/

theorem pySubscript_typeError (v : JValue) (key : String)
    (hv : ∀ fields, v ≠ JValue.obj fields) :
    pySubscript v key = LookupResult.typeError := by
  cases v with
  | obj fields => exact absurd rfl (hv fields)
  | null => rfl
  | boolean b => rfl
  | num n => rfl
  | str s => rfl
  | arr elems => rfl

theorem getCount_incr (s : StatusSummary) (c d : Category) :
    getCount (incr s c) d = getCount s d + (if c = d then 1 else 0) := by
  cases c <;> cases d <;> simp [incr, getCount]

theorem sumValues_incr (s : StatusSummary) (c : Category) :
    sumValues (incr s c) = sumValues s + 1 := by
  cases c <;> simp [incr, sumValues] <;> omega

theorem sumValues_foldl (invs : List Invocation) (s : StatusSummary) :
    sumValues (invs.foldl tallyStep s) = sumValues s + invs.length := by
  induction invs generalizing s with
  | nil => simp
  | cons inv rest ih =>
    simp only [List.foldl_cons, ih, tallyStep, sumValues_incr, List.length_cons]
    omega

theorem getCount_foldl (invs : List Invocation) (s : StatusSummary) (c : Category) :
    getCount (invs.foldl tallyStep s) c =
      getCount s c + invs.countP (fun inv => decide (classify inv = c)) := by
  induction invs generalizing s with
  | nil => simp
  | cons inv rest ih =>
    simp only [List.foldl_cons, ih, tallyStep, getCount_incr, List.countP_cons]
    by_cases h : classify inv = c
    · simp [h]
      omega
    · simp [h]

theorem getCount_summarize (invs : List Invocation) (c : Category) :
    getCount (summarize_status invs) c =
      invs.countP (fun inv => decide (classify inv = c)) := by
  have h := getCount_foldl invs initSummary c
  have hz : getCount initSummary c = 0 := by cases c <;> rfl
  simpa [summarize_status, hz] using h

theorem sumValues_summarize (invs : List Invocation) :
    sumValues (summarize_status invs) = invs.length := by
  have h := sumValues_foldl invs initSummary
  simpa [summarize_status, sumValues, initSummary] using h

theorem specComplete_iff_allCompleted (s : StatusSummary) :
    specComplete s ↔ allCompleted s = true := by
  simp [specComplete, allCompleted, and_assoc]

theorem summary_ext (s t : StatusSummary)
    (h : ∀ c, getCount s c = getCount t c) : s = t := by
  cases s; cases t
  have h1 := h .Success
  have h2 := h .Failed
  have h3 := h .InProgress
  have h4 := h .Cancelled
  have h5 := h .TimedOut
  have h6 := h .Cancelling
  have h7 := h .Received
  have h8 := h .Other
  simp only [getCount] at h1 h2 h3 h4 h5 h6 h7 h8
  simp_all

/-! ## Claims -/

/-- Claim C1: within one loop iteration on a successful fetch, the run is
considered complete exactly when the latest summary has InProgress,
Cancelling and Received all zero, and upon completion the process exits
with code 1 when Failed is positive and with code 0 otherwise. -/
theorem loop_exit_iff_complete (interval : Nat) (invs : List Invocation) :
    ((∃ c, Event.exited c ∈
        loopEvents interval (fun _ => FetchResult.ok (some invs)) 1) ↔
      specComplete (summarize_status invs)) ∧
    (Event.exited 1 ∈ loopEvents interval (fun _ => FetchResult.ok (some invs)) 1 ↔
      (specComplete (summarize_status invs) ∧ 0 < (summarize_status invs).Failed)) ∧
    (Event.exited 0 ∈ loopEvents interval (fun _ => FetchResult.ok (some invs)) 1 ↔
      (specComplete (summarize_status invs) ∧ (summarize_status invs).Failed = 0)) := by
  have hiff := specComplete_iff_allCompleted (summarize_status invs)
  simp only [loopEvents, Option.getD_some]
  by_cases hc : allCompleted (summarize_status invs)
  · by_cases hf : 0 < (summarize_status invs).Failed
    · simp [hc, hf, hiff]
      omega
    · simp [hc, hf, hiff]
      omega
  · simp [hc, hiff]

/-- Claim C2: the eight category counts of the summary always add up to
the number of invocation records summarized. -/
theorem summarize_total_eq_length (invs : List Invocation) :
    sumValues (summarize_status invs) = invs.length :=
  sumValues_summarize invs

/-- Claim C4: a record whose status string exactly matches one of the
seven named categories is counted in that category, and any other record
is counted under Other (the code bucket agrees with the spec bucket);
processing one more record increments exactly its bucket count. -/
theorem summarize_bucket_exact (invs : List Invocation) (inv : Invocation)
    (c : Category) :
    classify inv = specBucket inv ∧
    getCount (summarize_status (invs ++ [inv])) c =
      getCount (summarize_status invs) c + (if classify inv = c then 1 else 0) := by
  constructor
  · cases inv with
    | mk status =>
      cases status with
      | none => rfl
      | some s =>
        simp only [classify, specBucket]
        split_ifs <;> rfl
  · simp only [summarize_status, List.foldl_append, List.foldl_cons,
      List.foldl_nil, tallyStep, getCount_incr]

/-- Claim C7: the Status Summarizer is deterministic and its output is a
pure function of the input records: every category count is exactly the
number of records classified into that category, so two invocations on the
same sequence agree. -/
theorem summarize_deterministic (invs : List Invocation) :
    summarize_status invs = summarize_status invs ∧
    ∀ c, getCount (summarize_status invs) c =
      invs.countP (fun inv => decide (classify inv = c)) :=
  ⟨rfl, fun c => getCount_summarize invs c⟩

/-- Claim C8: a record with no Status field at all is classified under
Other; it is counted there, not skipped, and still contributes to the
total. -/
theorem missing_status_counts_other (invs : List Invocation) (inv : Invocation)
    (h : inv.status = none) :
    classify inv = Category.Other ∧
    getCount (summarize_status (invs ++ [inv])) Category.Other =
      getCount (summarize_status invs) Category.Other + 1 ∧
    sumValues (summarize_status (invs ++ [inv])) = invs.length + 1 := by
  have hc : classify inv = Category.Other := by
    cases inv with
    | mk status => cases h; rfl
  refine ⟨hc, ?_, ?_⟩
  · simp [summarize_status, List.foldl_append, tallyStep, getCount_incr, hc]
  · rw [sumValues_summarize]
    simp

/-- Claim C8 witness at a concrete record. -/
theorem missing_status_counts_other_witness :
    (Invocation.mk none).status = none ∧
    (classify (Invocation.mk none) = Category.Other ∧
      getCount (summarize_status ([Invocation.mk (some "Success")] ++
          [Invocation.mk none])) Category.Other =
        getCount (summarize_status [Invocation.mk (some "Success")])
          Category.Other + 1 ∧
      sumValues (summarize_status ([Invocation.mk (some "Success")] ++
          [Invocation.mk none])) = [Invocation.mk (some "Success")].length + 1) :=
  ⟨rfl, missing_status_counts_other [Invocation.mk (some "Success")]
    (Invocation.mk none) rfl⟩

/-- Claim C10: the summary is invariant under permutation of the input
records; it depends only on the multiset of statuses. -/
theorem summarize_perm_invariant (l1 l2 : List Invocation) (h : l1.Perm l2) :
    summarize_status l1 = summarize_status l2 := by
  apply summary_ext
  intro c
  rw [getCount_summarize, getCount_summarize]
  exact h.countP_eq _

/-- Claim C3 counterexample: the input text `null` parses, lacks a
non-empty Command.CommandId, and yet the run does not produce the one-line
malformed-input diagnostic: subscripting None raises an uncaught
TypeError, so the process dies with a traceback (still exit code 1, still
before any network call). -/
theorem malformed_input_claim_counterexample :
    hasNonEmptyCommandId (some JValue.null) = false ∧
    mainEvents (some JValue.null) 15 (fun _ => FetchResult.ok none) 1 =
      [Event.stderrTraceback, Event.exited 1] ∧
    Event.stderrDiagnostic ∉
      mainEvents (some JValue.null) 15 (fun _ => FetchResult.ok none) 1 := by
  refine ⟨rfl, rfl, ?_⟩
  decide

/-- Claim C3 (amended): for every parsed input lacking a non-empty
Command.CommandId, the process terminates with exit code 1 before any
network call; it emits the one-line diagnostic exactly when JSON decoding
fails, a dict lookup misses its key, or the extracted value is falsy, and
when the lookup subscripts a non-dict value it instead crashes with an
uncaught TypeError traceback — every case of the split is established. -/
theorem malformed_input_no_network (input : Option JValue)
    (interval fuel : Nat) (fetches : Nat → FetchResult)
    (h : hasNonEmptyCommandId input = false) :
    malformedRunBehavior input (mainEvents input interval fetches fuel) := by
  have hd : mainEvents input interval fetches fuel =
        [Event.stderrDiagnostic, Event.exited 1] ∨
      mainEvents input interval fetches fuel =
        [Event.stderrTraceback, Event.exited 1] := by
    cases hx : extract_command_id input with
    | ok v => simp [hasNonEmptyCommandId, hx] at h
    | malformedExit => exact Or.inl (by simp [mainEvents, hx])
    | typeErrorCrash => exact Or.inr (by simp [mainEvents, hx])
  unfold malformedRunBehavior
  refine ⟨hd, ?_, ?_, ?_, ?_, ?_, ?_, ?_, ?_⟩
  · rcases hd with h1 | h1 <;> rw [h1] <;> simp
  · rcases hd with h1 | h1 <;> rw [h1] <;> simp
  · intro he
    subst he
    rfl
  · intro fields he hl
    subst he
    simp [mainEvents, extract_command_id, pySubscript, hl]
  · intro fields cfields he hl1 hl2
    subst he
    simp [mainEvents, extract_command_id, pySubscript, hl1, hl2]
  · intro fields cfields v he hl1 hl2 hv
    subst he
    simp [mainEvents, extract_command_id, pySubscript, hl1, hl2, hv]
  · intro data he hdata
    subst he
    simp [mainEvents, extract_command_id, pySubscript_typeError data "Command" hdata]
  · intro fields c he hl hc
    subst he
    simp [mainEvents, extract_command_id, pySubscript, hl,
      pySubscript_typeError c "CommandId" hc]

/-- Claim C3 witness: undecodable input (a JSON syntax error). -/
theorem malformed_input_no_network_witness :
    hasNonEmptyCommandId none = false ∧
    malformedRunBehavior none (mainEvents none 15 (fun _ => FetchResult.ok none) 1) :=
  ⟨rfl, malformed_input_no_network none 15 1 (fun _ => FetchResult.ok none) rfl⟩

/-- Claim C5: when the fetch call raises a client error, the loop prints
the error detail, exits with code 1, and makes no further fetch attempt:
the trace of the whole remaining run is exactly one fetch, one error line
and the exit. -/
theorem fetch_error_fatal (interval fuel : Nat) (fetches : Nat → FetchResult)
    (e : String) (h0 : fetches 0 = FetchResult.clientError e)
    (hfuel : 0 < fuel) :
    loopEvents interval fetches fuel =
      [Event.fetched, Event.errorPrinted e, Event.exited 1] := by
  cases fuel with
  | zero => omega
  | succ n => simp [loopEvents, h0]

/-- Claim C5 witness at a concrete throttling error. -/
theorem fetch_error_fatal_witness :
    (fun _ : Nat => FetchResult.clientError "ThrottlingException") 0 =
      FetchResult.clientError "ThrottlingException" ∧ 0 < 1 ∧
    loopEvents 15 (fun _ => FetchResult.clientError "ThrottlingException") 1 =
      [Event.fetched, Event.errorPrinted "ThrottlingException",
        Event.exited 1] :=
  ⟨rfl, by decide,
    fetch_error_fatal 15 1 (fun _ => FetchResult.clientError "ThrottlingException")
      "ThrottlingException" rfl (by decide)⟩

/-- Claim C6: while the completion predicate does not hold in any fetched
summary — whatever the incomplete summary is — the loop never exits within
any number of iterations (there is no iteration bound): the trace is
exactly fetch, summary, sleep of the configured interval, and then the
next fetch, with `fuel` sleeps and `fuel` fetches in `fuel` iterations;
the default interval is 15. -/
theorem loop_no_exit_when_incomplete (interval fuel : Nat)
    (fetches : Nat → FetchResult)
    (h : ∀ k, ∃ resp, fetches k = FetchResult.ok resp ∧
        ¬ specComplete (summarize_status (resp.getD []))) :
    defaultInterval = 15 ∧
    loopEvents interval fetches fuel = pollingTrace interval fetches fuel ∧
    (∀ c, Event.exited c ∉ loopEvents interval fetches fuel) ∧
    countSleeps interval (loopEvents interval fetches fuel) = fuel ∧
    countFetches (loopEvents interval fetches fuel) = fuel := by
  refine ⟨rfl, ?_⟩
  induction fuel generalizing fetches with
  | zero => simp [loopEvents, pollingTrace, countSleeps, countFetches]
  | succ n ih =>
    obtain ⟨resp, hr, hnc⟩ := h 0
    obtain ⟨htr, hmem, hsleep, hfetch⟩ :=
      ih (fun k => fetches (k + 1)) (fun k => h (k + 1))
    have hb : allCompleted (summarize_status (resp.getD [])) = false := by
      cases hab : allCompleted (summarize_status (resp.getD [])) with
      | false => rfl
      | true => exact absurd ((specComplete_iff_allCompleted _).mpr hab) hnc
    simp only [loopEvents, pollingTrace, cycleSummary, hr, hb,
      Bool.false_eq_true, if_false]
    refine ⟨?_, ?_, ?_, ?_⟩
    · simp [htr]
    · intro c
      simp only [List.mem_cons, List.not_mem_nil]
      push_neg
      exact ⟨by simp, by simp, by simp, hmem c⟩
    · simp [countSleeps, List.countP_cons] at hsleep ⊢
      omega
    · simp [countFetches, List.countP_cons] at hfetch ⊢
      omega

/-- Claim C6 witness: a constant stream of one in-progress record, three
iterations, at the default interval. -/
theorem loop_no_exit_when_incomplete_witness :
    (∀ k, ∃ resp,
        (fun _ : Nat => FetchResult.ok (some [Invocation.mk (some "InProgress")])) k =
          FetchResult.ok resp ∧
        ¬ specComplete (summarize_status (resp.getD []))) ∧
    (defaultInterval = 15 ∧
      loopEvents 15 (fun _ => FetchResult.ok (some [Invocation.mk (some "InProgress")])) 3 =
        pollingTrace 15 (fun _ => FetchResult.ok (some [Invocation.mk (some "InProgress")])) 3 ∧
      (∀ c, Event.exited c ∉ loopEvents 15
          (fun _ => FetchResult.ok (some [Invocation.mk (some "InProgress")])) 3) ∧
      countSleeps 15 (loopEvents 15
          (fun _ => FetchResult.ok (some [Invocation.mk (some "InProgress")])) 3) = 3 ∧
      countFetches (loopEvents 15
          (fun _ => FetchResult.ok (some [Invocation.mk (some "InProgress")])) 3) = 3) :=
  ⟨fun _ => ⟨some [Invocation.mk (some "InProgress")], rfl, by decide⟩,
    loop_no_exit_when_incomplete 15 3
      (fun _ => FetchResult.ok (some [Invocation.mk (some "InProgress")]))
      (fun _ => ⟨some [Invocation.mk (some "InProgress")], rfl, by decide⟩)⟩

/-- Claim C9: a fetch returning an empty record list yields the all-zero
summary, which satisfies the completion predicate with Failed = 0, so
the loop prints the summary and exits with code 0 on that same cycle. -/
theorem empty_fetch_exits_zero (interval fuel : Nat)
    (fetches : Nat → FetchResult)
    (h0 : fetches 0 = FetchResult.ok (some [])) (hfuel : 0 < fuel) :
    (summarize_status []).Failed = 0 ∧ specComplete (summarize_status []) ∧
    loopEvents interval fetches fuel =
      [Event.fetched, Event.summaryPrinted initSummary, Event.exited 0] := by
  refine ⟨rfl, ⟨rfl, rfl, rfl⟩, ?_⟩
  cases fuel with
  | zero => omega
  | succ n => simp [loopEvents, h0, allCompleted, summarize_status, initSummary]

/-- Claim C9 witness at a concrete empty response. -/
theorem empty_fetch_exits_zero_witness :
    (fun _ : Nat => FetchResult.ok (some ([] : List Invocation))) 0 =
      FetchResult.ok (some []) ∧ 0 < 1 ∧
    ((summarize_status []).Failed = 0 ∧ specComplete (summarize_status []) ∧
      loopEvents 15 (fun _ => FetchResult.ok (some [])) 1 =
        [Event.fetched, Event.summaryPrinted initSummary, Event.exited 0]) :=
  ⟨rfl, by decide,
    empty_fetch_exits_zero 15 1 (fun _ => FetchResult.ok (some [])) rfl
      (by decide)⟩

/-- Claim C10 witness at a concrete transposition. -/
theorem summarize_perm_invariant_witness :
    List.Perm [Invocation.mk (some "Failed"), Invocation.mk (some "Success")]
      [Invocation.mk (some "Success"), Invocation.mk (some "Failed")] ∧
    summarize_status [Invocation.mk (some "Failed"), Invocation.mk (some "Success")] =
      summarize_status [Invocation.mk (some "Success"), Invocation.mk (some "Failed")] :=
  ⟨List.Perm.swap _ _ _, summarize_perm_invariant _ _ (List.Perm.swap _ _ _)⟩

end Monitor
